import Mathlib

/-!
Verification of the DroneLENS landing page (a Next.js/React single-page site).

The development shallowly embeds the interactive parts of the repository:

* `src/src/components/sections/Contact.tsx` — the lead-capture form.
  Its React component holds two pieces of state, `formData : FormData` and
  `formState : FormState`, mutated by the handlers `handleChange`,
  `handleSubmit` and `handleReset`.  We embed the component as a state
  machine: `ContactState` carries the two `useState` cells plus a count of
  simulated-network timers scheduled by `handleSubmit` and not yet fired,
  and `step` dispatches the UI events that the rendered page can actually
  generate (the guards in `step` are read off the JSX: the form is rendered
  only while `formState !== 'success'`, the submit button carries
  `disabled={formState === 'loading'}`, and the reset button exists only
  inside `SuccessState`).
* `src/src/components/sections/Portfolio.tsx` — the marquee carousel.
* `src/unnamed/part_002` (Testimonials.tsx) — the `StarRating` component.
* `src/unnamed/part_003` (ThemeToggle.tsx) — the theme-toggle click handler.
-/

namespace DroneLens

/-! ## Contact.tsx — data model -/

/-- Contact.tsx line 43: `type FormState = 'idle' | 'loading' | 'success' | 'error'`.
The Lean inductive makes "exactly one of the four states" hold by construction. -/
inductive FormState where
  | idle
  | loading
  | success
  | error
deriving DecidableEq

/-- Contact.tsx lines 46-51: `interface FormData` with five string fields.
The JavaScript value is an object, and `handleChange` writes to it through a
computed key `[e.target.name]`, so the object is not closed over the five
declared fields.  We therefore embed it as an ordered association list of
string keys, exactly the shape of a JS object literal. -/
abbrev FormData := List (String × String)

/-- Contact.tsx lines 53-55: `const EMPTY_FORM = { name: '', email: '', phone: '', service: '', message: '' }`. -/
def EMPTY_FORM : FormData :=
  [("name", ""), ("email", ""), ("phone", ""), ("service", ""), ("message", "")]

/-- Property read `obj[k]` on the embedded object. -/
def getKey : FormData → String → Option String
  | [], _ => none
  | (k', v') :: rest, k => if k' = k then some v' else getKey rest k

/-- Object spread update `{ ...prev, [k]: v }`: an existing key keeps its
position and gets the new value; an absent key is appended at the end, as
JavaScript property-creation order dictates. -/
def setKey : FormData → String → String → FormData
  | [], k, v => [(k, v)]
  | (k', v') :: rest, k, v =>
      if k' = k then (k, v) :: rest else (k', v') :: setKey rest k v

/-- Key list of the embedded object, in property order. -/
def keys (d : FormData) : List String := d.map Prod.fst

/-! ## Contact.tsx — component state and handlers -/

/-- The component's live state: the two `useState` cells of `Contact`
plus the number of simulated-network `setTimeout` timers scheduled by
`handleSubmit` and not yet elapsed. -/
structure ContactState where
  formData  : FormData
  formState : FormState
  pending   : Nat
deriving DecidableEq

/-- Contact.tsx lines 151-155:
`setFormData((prev) => ({ ...prev, [e.target.name]: e.target.value }))`. -/
def handleChange (s : ContactState) (name value : String) : ContactState :=
  { s with formData := setKey s.formData name value }

/-- Contact.tsx line 185: `await new Promise((resolve) => setTimeout(resolve, 1800))`.
The promise is resolved by the timer callback and nothing ever rejects it,
so the simulated submission settles with success unconditionally. -/
def simulatedSubmission : Except Unit Unit := Except.ok ()

/-- Synchronous prefix of `handleSubmit` (Contact.tsx lines 165-168):
`setFormState('loading')`, then the simulated network delay is scheduled. -/
def handleSubmitStart (s : ContactState) : ContactState :=
  { s with formState := FormState.loading, pending := s.pending + 1 }

/-- Continuation of `handleSubmit` once the awaited promise settles
(Contact.tsx lines 169-189): the `try` arm runs `setFormState('success')`;
the `catch` arm would run `setFormState('error')`. -/
def handleSubmitSettle (s : ContactState) : ContactState :=
  match simulatedSubmission with
  | Except.ok _ => { s with formState := FormState.success }
  | Except.error _ => { s with formState := FormState.error }

/-- Contact.tsx lines 192-195: `setFormData(EMPTY_FORM); setFormState('idle')`. -/
def handleReset (s : ContactState) : ContactState :=
  { s with formData := EMPTY_FORM, formState := FormState.idle }

/-! ## Contact.tsx — the events the rendered page can generate -/

/-- UI events of the contact section: submitting the form, the simulated
network delay elapsing, editing one input, and clicking the reset button of
the success screen. -/
inductive Event where
  | submit
  | timer
  | change (name value : String)
  | reset
deriving DecidableEq

/-- Contact.tsx lines 349-353: `{formState === 'success' ? <SuccessState .../> : <motion.form ...>}` —
the form (with its inputs and submit button) exists exactly while the state
is not `success`. -/
def formRendered (s : ContactState) : Bool :=
  match s.formState with
  | FormState.success => false
  | _ => true

/-- Contact.tsx line 455: `disabled={formState === 'loading'}` on the submit button. -/
def submitDisabled (s : ContactState) : Bool :=
  match s.formState with
  | FormState.loading => true
  | _ => false

/-- The reset button is the `onReset` of `SuccessState`, rendered only when
`formState === 'success'`. -/
def resetRendered (s : ContactState) : Bool :=
  match s.formState with
  | FormState.success => true
  | _ => false

/-- One UI event.  An event whose control is not rendered, or whose control
is disabled, leaves the state untouched (the browser never delivers it). -/
def step (s : ContactState) : Event → ContactState
  | Event.submit =>
      if formRendered s && !submitDisabled s then handleSubmitStart s else s
  | Event.timer =>
      if 0 < s.pending then handleSubmitSettle { s with pending := s.pending - 1 } else s
  | Event.change k v =>
      if formRendered s then handleChange s k v else s
  | Event.reset =>
      if resetRendered s then handleReset s else s

/-- Initial component state: `useState(EMPTY_FORM)`, `useState('idle')`, no timer. -/
def init : ContactState := ⟨EMPTY_FORM, FormState.idle, 0⟩

/-- Run a list of events from an arbitrary state. -/
def runFrom (s : ContactState) (evs : List Event) : ContactState :=
  evs.foldl step s

/-- Run a list of events from the initial state. -/
def run (evs : List Event) : ContactState :=
  runFrom init evs

/-! ## Portfolio.tsx — marquee -/

/-- constants.ts `PortfolioItem`: the fields the carousel renders. -/
structure PortfolioItem where
  id : String
  title : String
  category : String
  image : String
  location : String
deriving DecidableEq

/-- constants.ts lines 183-268: the ten portfolio entries (images elided to
their ids is not allowed — the full URLs are kept). -/
def PORTFOLIO_ITEMS : List PortfolioItem :=
  [ ⟨"p01", "Skyline de Curitiba", "Fotografia Aérea",
     "https://images.unsplash.com/photo-1477959858617-67f85cf4f1df?w=700&h=480&q=85&auto=format&fit=crop",
     "Curitiba, PR"⟩,
    ⟨"p02", "Vistoria de Torre Industrial", "Vistoria Técnica",
     "https://images.unsplash.com/photo-1473968512647-3e447244af8f?w=700&h=480&q=85&auto=format&fit=crop",
     "São Paulo, SP"⟩,
    ⟨"p03", "Lançamento Residencial Alto do Iguaçu", "Lançamento Imobiliário",
     "https://images.unsplash.com/photo-1512917774080-9991b1c3602a?w=700&h=480&q=85&auto=format&fit=crop",
     "Curitiba, PR"⟩,
    ⟨"p04", "Festival Gastronômico Curitiba", "Eventos",
     "https://images.unsplash.com/photo-1429962714451-bb934ecdc4ec?w=700&h=480&q=85&auto=format&fit=crop",
     "Curitiba, PR"⟩,
    ⟨"p05", "Maratona Internacional de Buenos Aires", "Eventos Esportivos",
     "https://images.unsplash.com/photo-1569336415962-a4bd9f69cd83?w=700&h=480&q=85&auto=format&fit=crop",
     "Buenos Aires, ARG"⟩,
    ⟨"p06", "Serra Gaúcha Vista do Alto", "Fotografia Aérea",
     "https://images.unsplash.com/photo-1506905925346-21bda4d32df4?w=700&h=480&q=85&auto=format&fit=crop",
     "Bento Gonçalves, RS"⟩,
    ⟨"p07", "Inspeção de Usina Solar", "Vistoria Técnica",
     "https://images.unsplash.com/photo-1486325212027-8081e485255e?w=700&h=480&q=85&auto=format&fit=crop",
     "Pernambuco, PE"⟩,
    ⟨"p08", "Vídeo Institucional Prefeitura de Curitiba", "Institucional",
     "https://images.unsplash.com/photo-1486406869267-3f6a0f7d3a4c?w=700&h=480&q=85&auto=format&fit=crop",
     "Curitiba, PR"⟩,
    ⟨"p09", "Campeonato de Motocross", "Eventos Esportivos",
     "https://images.unsplash.com/photo-1568702846914-96b305d2aaeb?w=700&h=480&q=85&auto=format&fit=crop",
     "Florianópolis, SC"⟩,
    ⟨"p10", "Condomínio Horizontal Vista Verde", "Lançamento Imobiliário",
     "https://images.unsplash.com/photo-1519125323398-675f0ddb6308?w=700&h=480&q=85&auto=format&fit=crop",
     "Londrina, PR"⟩ ]

/-- One rendered card of the marquee, with the attributes `PortfolioCard`
derives from its props (Portfolio.tsx lines 32-98): `aria-hidden={isClone}`
and `alt={isClone ? '' : item.title + ' — DroneLENS'}`. -/
structure RenderedCard where
  item : PortfolioItem
  isClone : Bool
  ariaHidden : Bool
  alt : String
deriving DecidableEq

/-- Portfolio.tsx lines 32-98: the `PortfolioCard` component applied to its props. -/
def PortfolioCard (item : PortfolioItem) (isClone : Bool) : RenderedCard :=
  ⟨item, isClone, isClone, if isClone then "" else item.title ++ " — DroneLENS"⟩

/-- Portfolio.tsx lines 202-218: the marquee track renders every item once
as an original card and then every item once more as a clone card. -/
def marqueeTrack : List RenderedCard :=
  PORTFOLIO_ITEMS.map (fun item => PortfolioCard item false) ++
  PORTFOLIO_ITEMS.map (fun item => PortfolioCard item true)

/-! ## Testimonials (part_002) — StarRating -/

/-- part_002 lines 30-46: `Array.from({ length: 5 }).map((_, i) => <Star ... className={i < rating ? filled : unfilled} />)`.
`true` stands for a filled star.  The rating prop is a JS number; the values
fed to it are integers, embedded as `Int` so that negative inputs are
expressible. -/
def StarRating (rating : Int) : List Bool :=
  (List.range 5).map (fun i => decide (Int.ofNat i < rating))

/-! ## ThemeToggle (part_003) -/

/-- part_003 lines 57-64: `const isDark = theme === 'dark'` and
`onClick={() => setTheme(isDark ? 'light' : 'dark')}`.  The `theme` value
from `useTheme` may be undefined, embedded as `none`. -/
def themeToggleClick (theme : Option String) : Option String :=
  if theme = some "dark" then some "light" else some "dark"

/-! ## Object-update lemmas -/

theorem getKey_setKey_self (d : FormData) (k v : String) :
    getKey (setKey d k v) k = some v := by
  induction d with
  | nil => simp [setKey, getKey]
  | cons hd tl ih =>
      obtain ⟨a, b⟩ := hd
      by_cases h : a = k <;> simp [setKey, getKey, h, ih]

theorem getKey_setKey_ne (d : FormData) (k k' v : String) (h : k' ≠ k) :
    getKey (setKey d k v) k' = getKey d k' := by
  induction d with
  | nil => simp [setKey, getKey, Ne.symm h]
  | cons hd tl ih =>
      obtain ⟨a, b⟩ := hd
      by_cases ha : a = k
      · subst ha
        simp [setKey, getKey, Ne.symm h]
      · simp [setKey, getKey, ha, ih]

/-- The value the last `updateField` call in `us` wrote to field `k`, if any. -/
def lastWrite (k : String) : List (String × String) → Option String
  | [] => none
  | (k', v) :: rest =>
      match lastWrite k rest with
      | some w => some w
      | none => if k' = k then some v else none

/-- Iterate `handleChange`-style updates over the object, in call order. -/
def applyUpdates (d : FormData) (us : List (String × String)) : FormData :=
  us.foldl (fun acc kv => setKey acc kv.1 kv.2) d

theorem getKey_applyUpdates (us : List (String × String)) (d : FormData) (k : String) :
    getKey (applyUpdates d us) k =
      match lastWrite k us with
      | some v => some v
      | none => getKey d k := by
  induction us generalizing d with
  | nil => simp [applyUpdates, lastWrite]
  | cons u rest ih =>
      obtain ⟨k0, v0⟩ := u
      have h1 : applyUpdates d ((k0, v0) :: rest) = applyUpdates (setKey d k0 v0) rest := rfl
      rw [h1, ih]
      cases hlw : lastWrite k rest with
      | some w => simp [lastWrite, hlw]
      | none =>
          by_cases hk : k0 = k
          · subst hk
            simp [lastWrite, hlw, getKey_setKey_self]
          · simp [lastWrite, hlw, hk, getKey_setKey_ne d k0 k v0 (Ne.symm hk)]

theorem setKey_append_of_not_mem (d : FormData) (k v : String) (h : k ∉ keys d) :
    setKey d k v = d ++ [(k, v)] := by
  induction d with
  | nil => simp [setKey]
  | cons hd tl ih =>
      obtain ⟨a, b⟩ := hd
      simp only [keys, List.map_cons, List.mem_cons] at h
      push_neg at h
      obtain ⟨h1, h2⟩ := h
      have ha : ¬a = k := fun hh => h1 hh.symm
      simp [setKey, ha, ih (by simpa [keys] using h2)]

/-! ## Reachability invariant of the contact component -/

/-- States reachable from `init`: either the submission is in flight
(state `loading`, exactly one timer pending) or the component is at rest in
`idle` or `success` with no timer pending.  In particular `error` never
arises. -/
def Inv (s : ContactState) : Prop :=
  (s.formState = FormState.loading ∧ s.pending = 1) ∨
  ((s.formState = FormState.idle ∨ s.formState = FormState.success) ∧ s.pending = 0)

theorem inv_init : Inv init := Or.inr ⟨Or.inl rfl, rfl⟩

theorem inv_step (s : ContactState) (e : Event) (h : Inv s) : Inv (step s e) := by
  obtain ⟨d, fs, p⟩ := s
  simp only [Inv] at h ⊢
  rcases h with ⟨h1, h2⟩ | ⟨h1 | h1, h2⟩ <;> subst h1 <;> subst h2 <;>
    cases e <;>
      simp [step, formRendered, submitDisabled, resetRendered, handleSubmitStart,
        handleSubmitSettle, handleReset, handleChange, simulatedSubmission]

theorem inv_runFrom (evs : List Event) (s : ContactState) (h : Inv s) :
    Inv (runFrom s evs) := by
  induction evs generalizing s with
  | nil => exact h
  | cons e rest ih => exact ih (step s e) (inv_step s e h)

theorem inv_run (evs : List Event) : Inv (run evs) :=
  inv_runFrom evs init inv_init

/-! ## Frame lemmas for the submission window and the success screen -/

theorem runFrom_loading_frame (evs : List Event) (s : ContactState)
    (h : (s.formState = FormState.loading ∧ s.pending = 1) ∨
         (s.formState = FormState.success ∧ s.pending = 0))
    (hevs : ∀ u ∈ evs, u = Event.submit ∨ u = Event.timer) :
    ((runFrom s evs).formState = FormState.loading ∧ (runFrom s evs).pending = 1 ∨
      (runFrom s evs).formState = FormState.success ∧ (runFrom s evs).pending = 0) ∧
    (runFrom s evs).formData = s.formData := by
  induction evs generalizing s with
  | nil => exact ⟨h, rfl⟩
  | cons u rest ih =>
      have hu := hevs u (List.mem_cons_self u rest)
      have hrest : ∀ v ∈ rest, v = Event.submit ∨ v = Event.timer :=
        fun v hv => hevs v (List.mem_cons_of_mem u hv)
      have hstep : ((step s u).formState = FormState.loading ∧ (step s u).pending = 1 ∨
          (step s u).formState = FormState.success ∧ (step s u).pending = 0) ∧
          (step s u).formData = s.formData := by
        obtain ⟨d, fs, p⟩ := s
        simp only at h ⊢
        rcases h with ⟨h1, h2⟩ | ⟨h1, h2⟩ <;> subst h1 <;> subst h2 <;>
          rcases hu with rfl | rfl <;>
            simp [step, formRendered, submitDisabled, handleSubmitSettle, simulatedSubmission]
      obtain ⟨ha, hb⟩ := hstep
      obtain ⟨hc, hd2⟩ := ih (step s u) ha hrest
      refine ⟨hc, ?_⟩
      rw [show runFrom s (u :: rest) = runFrom (step s u) rest from rfl, hd2, hb]

theorem runFrom_success_frame (evs : List Event) (s : ContactState)
    (h : s.formState = FormState.success) (hevs : ∀ u ∈ evs, u ≠ Event.reset) :
    (runFrom s evs).formState = FormState.success ∧
    (runFrom s evs).formData = s.formData := by
  induction evs generalizing s with
  | nil => exact ⟨h, rfl⟩
  | cons u rest ih =>
      have hu : u ≠ Event.reset := hevs u (List.mem_cons_self u rest)
      have hrest : ∀ v ∈ rest, v ≠ Event.reset :=
        fun v hv => hevs v (List.mem_cons_of_mem u hv)
      have hstep : (step s u).formState = FormState.success ∧
          (step s u).formData = s.formData := by
        cases u with
        | submit => simp [step, formRendered, h]
        | change k v => simp [step, formRendered, h]
        | reset => exact absurd rfl hu
        | timer =>
            by_cases hp : 0 < s.pending <;>
              simp [step, hp, handleSubmitSettle, simulatedSubmission, h]
      obtain ⟨ha, hb⟩ := hstep
      obtain ⟨hc, hd2⟩ := ih (step s u) ha hrest
      refine ⟨hc, ?_⟩
      rw [show runFrom s (u :: rest) = runFrom (step s u) rest from rfl, hd2, hb]

/-! ## Claim theorems -/

/-- C1: FormState always holds exactly one of the four enumerated states
(which the inductive type `FormState` enforces by construction), and every
state change produced by an event on a reachable state is one of the linear
transitions: `idle → loading` via submit, `loading → success` or
`loading → error` when the submission settles, and `success → idle` or
`error → idle` via explicit reset; in particular `success → loading` never
occurs. -/
theorem c1_linear_transitions (evs : List Event) (e : Event) :
    (step (run evs) e).formState = (run evs).formState ∨
    ((run evs).formState = FormState.idle ∧
      (step (run evs) e).formState = FormState.loading ∧ e = Event.submit) ∨
    ((run evs).formState = FormState.loading ∧
      ((step (run evs) e).formState = FormState.success ∨
        (step (run evs) e).formState = FormState.error) ∧ e = Event.timer) ∨
    ((run evs).formState = FormState.success ∧
      (step (run evs) e).formState = FormState.idle ∧ e = Event.reset) ∨
    ((run evs).formState = FormState.error ∧
      (step (run evs) e).formState = FormState.idle ∧ e = Event.reset) := by
  have h := inv_run evs
  revert h
  generalize run evs = s
  intro h
  obtain ⟨d, fs, p⟩ := s
  simp only [Inv] at h
  rcases h with ⟨h1, h2⟩ | ⟨h1 | h1, h2⟩ <;> subst h1 <;> subst h2 <;>
    cases e <;>
      simp [step, formRendered, submitDisabled, resetRendered, handleSubmitStart,
        handleSubmitSettle, handleReset, handleChange, simulatedSubmission]

/-- C2: submitting while the state is `loading` is a no-op — the submit
button is disabled, so the event leaves the state (including the count of
scheduled timers) untouched — and consequently two submissions in immediate
succession are observably equal to one. -/
theorem c2_submit_while_loading_noop (s : ContactState) :
    (s.formState = FormState.loading → step s Event.submit = s) ∧
    step (step s Event.submit) Event.submit = step s Event.submit := by
  obtain ⟨d, fs, p⟩ := s
  cases fs <;>
    simp [step, formRendered, submitDisabled, handleSubmitStart]

theorem c2_witness :
    step (⟨EMPTY_FORM, FormState.loading, 1⟩ : ContactState) Event.submit =
      (⟨EMPTY_FORM, FormState.loading, 1⟩ : ContactState) :=
  (c2_submit_while_loading_noop ⟨EMPTY_FORM, FormState.loading, 1⟩).1 rfl

/-- C3: the simulated submission always resolves (it is `Except.ok`), the
settle continuation always lands in `success` — the `catch` arm that would
set `error` is dead — and in every reachable execution the form state is
`idle`, `loading` or `success`, never `error`. -/
theorem c3_error_unreachable (evs : List Event) :
    simulatedSubmission = Except.ok () ∧
    (∀ t : ContactState, (handleSubmitSettle t).formState = FormState.success) ∧
    ((run evs).formState = FormState.idle ∨ (run evs).formState = FormState.loading ∨
      (run evs).formState = FormState.success) := by
  refine ⟨rfl, fun t => rfl, ?_⟩
  rcases inv_run evs with ⟨h1, _⟩ | ⟨h1 | h1, _⟩
  · exact Or.inr (Or.inl h1)
  · exact Or.inl h1
  · exact Or.inr (Or.inr h1)

/-- C4 as stated is refuted: the form inputs are not disabled while the
submission is in flight, so a change event during the loading window
alters FormData between the invocation of submit and its resolution.  In
the execution below the form holds name "Ana" when submit fires, the user
types "Bob" during the delay, and at resolution the state is `success` but
FormData differs from its value at invocation. -/
theorem c4_counterexample :
    (run [Event.change "name" "Ana", Event.submit, Event.change "name" "Bob",
        Event.timer]).formState = FormState.success ∧
    getKey (run [Event.change "name" "Ana", Event.submit]).formData "name" = some "Ana" ∧
    getKey (run [Event.change "name" "Ana", Event.submit, Event.change "name" "Bob",
        Event.timer]).formData "name" = some "Bob" ∧
    (run [Event.change "name" "Ana", Event.submit, Event.change "name" "Bob",
        Event.timer]).formData ≠
      (run [Event.change "name" "Ana", Event.submit]).formData := by
  decide

/-- C4 amended: submit itself modifies no field and neither does the timer
resolution; if no `updateField` (change event) occurs during the loading
window, the submission resolves with state `success` and FormData exactly
as it was when submit was invoked; and after resolution FormData stays
unchanged until reset is invoked. -/
theorem c4_submit_frame (s : ContactState) (evs : List Event) :
    ((step s Event.submit).formData = s.formData) ∧
    ((step s Event.timer).formData = s.formData) ∧
    (s.formState = FormState.loading → s.pending = 1 →
      (∀ u ∈ evs, u = Event.submit ∨ u = Event.timer) →
      (runFrom s (evs ++ [Event.timer])).formState = FormState.success ∧
      (runFrom s (evs ++ [Event.timer])).formData = s.formData) ∧
    (s.formState = FormState.success →
      (∀ u ∈ evs, u ≠ Event.reset) →
      (runFrom s evs).formData = s.formData) := by
  refine ⟨?_, ?_, ?_, ?_⟩
  · obtain ⟨d, fs, p⟩ := s
    cases fs <;> simp [step, formRendered, submitDisabled, handleSubmitStart]
  · by_cases hp : 0 < s.pending <;>
      simp [step, hp, handleSubmitSettle, simulatedSubmission]
  · intro h1 h2 h3
    obtain ⟨ha, hb⟩ := runFrom_loading_frame evs s (Or.inl ⟨h1, h2⟩) h3
    have hsplit : runFrom s (evs ++ [Event.timer]) = step (runFrom s evs) Event.timer := by
      simp [runFrom, List.foldl_append]
    rcases ha with ⟨hc, hd2⟩ | ⟨hc, hd2⟩
    · constructor
      · rw [hsplit]
        simp [step, hd2, handleSubmitSettle, simulatedSubmission]
      · rw [hsplit, ← hb]
        simp [step, hd2, handleSubmitSettle, simulatedSubmission]
    · constructor
      · rw [hsplit]
        simp [step, hd2, hc]
      · rw [hsplit, ← hb]
        simp [step, hd2]
  · intro h1 h2
    exact (runFrom_success_frame evs s h1 h2).2

theorem c4_witness :
    (runFrom ⟨setKey EMPTY_FORM "name" "Ana", FormState.loading, 1⟩
        ([] ++ [Event.timer])).formState = FormState.success ∧
    (runFrom ⟨setKey EMPTY_FORM "name" "Ana", FormState.loading, 1⟩
        ([] ++ [Event.timer])).formData = setKey EMPTY_FORM "name" "Ana" :=
  (c4_submit_frame ⟨setKey EMPTY_FORM "name" "Ana", FormState.loading, 1⟩ []).2.2.1
    rfl rfl (by intro u hu; cases hu)

/-- C7: the marquee track renders the portfolio list exactly twice in
order — the ten original cards followed by their ten clones — so the
rendered card list projects to the item list concatenated with itself, and
every card carries `aria-hidden` exactly when it is a clone. -/
theorem c7_marquee_duplication :
    marqueeTrack.map RenderedCard.item = PORTFOLIO_ITEMS ++ PORTFOLIO_ITEMS ∧
    PORTFOLIO_ITEMS.length = 10 ∧
    marqueeTrack.length = 20 ∧
    marqueeTrack.map RenderedCard.isClone =
      List.replicate 10 false ++ List.replicate 10 true ∧
    marqueeTrack.map RenderedCard.ariaHidden = marqueeTrack.map RenderedCard.isClone :=
  ⟨rfl, rfl, rfl, rfl, rfl⟩

theorem starRating_clamp_aux (c : Nat) (hc : c ≤ 5) :
    (List.range 5).map (fun i => decide (i < c)) =
      List.replicate c true ++ List.replicate (5 - c) false := by
  interval_cases c <;> decide

/-- C10: StarRating renders exactly five stars for every rating, of which
the first `min (max rating 0) 5` are filled and the remainder unfilled; a
rating above five displays as five and a zero or negative rating displays
no filled star, with no failure for out-of-range input. -/
theorem c10_star_rating (r : Int) :
    (StarRating r).length = 5 ∧
    StarRating r =
      List.replicate (min (max r 0) 5).toNat true ++
      List.replicate (5 - (min (max r 0) 5).toNat) false ∧
    (5 ≤ r → StarRating r = StarRating 5) ∧
    (r ≤ 0 → StarRating r = List.replicate 5 false) := by
  have hmain : StarRating r =
      List.replicate (min (max r 0) 5).toNat true ++
      List.replicate (5 - (min (max r 0) 5).toNat) false := by
    have hc : (min (max r 0) 5).toNat ≤ 5 := by omega
    rw [StarRating, ← starRating_clamp_aux _ hc]
    apply List.map_congr_left
    intro i hi
    have hi5 : i < 5 := List.mem_range.mp hi
    exact decide_eq_decide.mpr (by simp only [Int.ofNat_eq_coe]; omega)
  refine ⟨by simp [StarRating], hmain, ?_, ?_⟩
  · intro h5
    have hcl : (min (max r 0) 5).toNat = 5 := by omega
    rw [hmain, hcl]
    decide
  · intro h0
    have hcl : (min (max r 0) 5).toNat = 0 := by omega
    rw [hmain, hcl]
    decide

theorem c10_witness :
    StarRating 7 = StarRating 5 ∧ StarRating (-2) = List.replicate 5 false :=
  ⟨(c10_star_rating 7).2.2.1 (by norm_num), (c10_star_rating (-2)).2.2.2 (by norm_num)⟩

/-! ## Field-level claim theorems -/

/-- C5: `reset()` (the `handleReset` handler) always yields FormState `idle`
and FormData equal to the empty record — all five fields mapped to the empty
string — regardless of the prior state and prior field values. -/
theorem c5_reset_clears (s : ContactState) :
    (handleReset s).formState = FormState.idle ∧
    (handleReset s).formData = EMPTY_FORM ∧
    getKey (handleReset s).formData "name" = some "" ∧
    getKey (handleReset s).formData "email" = some "" ∧
    getKey (handleReset s).formData "phone" = some "" ∧
    getKey (handleReset s).formData "service" = some "" ∧
    getKey (handleReset s).formData "message" = some "" := by
  refine ⟨rfl, rfl, ?_, ?_, ?_, ?_, ?_⟩ <;> rfl

/-- C6: a sequence of `updateField` calls leaves each field at the last
value written to it (a field never written keeps its prior value), each
single update always succeeds and stores the value unconditionally, and an
update to one field leaves every other field unchanged. -/
theorem c6_updateField_last_write_wins (d : FormData) (us : List (String × String)) (k : String) :
    (getKey (applyUpdates d us) k =
      match lastWrite k us with
      | some v => some v
      | none => getKey d k) ∧
    (∀ v, getKey (setKey d k v) k = some v) ∧
    (∀ k' v, k' ≠ k → getKey (setKey d k v) k' = getKey d k') :=
  ⟨getKey_applyUpdates us d k,
   fun v => getKey_setKey_self d k v,
   fun k' v h => getKey_setKey_ne d k k' v h⟩

theorem c6_witness :
    getKey (applyUpdates EMPTY_FORM [("name", "a"), ("name", "b")]) "name" = some "b" ∧
    getKey (setKey EMPTY_FORM "name" "a") "email" = getKey EMPTY_FORM "email" := by
  constructor
  · rw [(c6_updateField_last_write_wins EMPTY_FORM [("name", "a"), ("name", "b")] "name").1]
    decide
  · exact (c6_updateField_last_write_wins EMPTY_FORM [] "name").2.2 "email" "a" (by decide)

/-- C8: `handleChange` keys the write by the event target's name for every
possible name: a change event carrying a name outside the five declared
fields extends the record with that extra key and value (appended after the
declared keys) rather than failing or being ignored. -/
theorem c8_unknown_field_extends_record (s : ContactState) (k v : String)
    (h : k ∉ keys s.formData) :
    (handleChange s k v).formData = s.formData ++ [(k, v)] ∧
    keys (handleChange s k v).formData = keys s.formData ++ [k] ∧
    getKey (handleChange s k v).formData k = some v := by
  have hset : setKey s.formData k v = s.formData ++ [(k, v)] :=
    setKey_append_of_not_mem s.formData k v h
  refine ⟨hset, ?_, getKey_setKey_self s.formData k v⟩
  show keys (setKey s.formData k v) = keys s.formData ++ [k]
  rw [hset]
  simp [keys]

theorem c8_witness :
    ("company" ∉ keys init.formData) ∧
    (handleChange init "company" "ACME").formData = init.formData ++ [("company", "ACME")] :=
  ⟨by decide, (c8_unknown_field_extends_record init "company" "ACME" (by decide)).1⟩

/-- C9: one theme-toggle click sets the theme to `light` exactly when the
current theme is `dark`, and to `dark` for every other current value
(including `light`, `system`, or an unset theme); hence after one click the
theme is `light` or `dark`, and two clicks restore the original theme if
and only if the original was already `light` or `dark`. -/
theorem c9_theme_toggle (t : Option String) :
    (themeToggleClick t = some "light" ↔ t = some "dark") ∧
    (themeToggleClick t = some "light" ∨ themeToggleClick t = some "dark") ∧
    (themeToggleClick (themeToggleClick t) = t ↔ (t = some "light" ∨ t = some "dark")) := by
  by_cases hd : t = some "dark"
  · subst hd; decide
  · by_cases hl : t = some "light"
    · subst hl; decide
    · refine ⟨?_, Or.inr ?_, ?_⟩
      · simp [themeToggleClick, hd]
      · simp [themeToggleClick, hd]
      · rw [show themeToggleClick t = some "dark" from by simp [themeToggleClick, hd]]
        rw [show themeToggleClick (some "dark") = some "light" from by decide]
        simp [hd, hl, eq_comm]

end DroneLens
